import Mathlib

/-!
Verification of the schema-validation core of a gateway control plane.

The core resolves a composite (engine version, resource kind, storage sink)
key to a structural schema, evaluates candidate JSON documents against it,
and layers semantic rules (filter-expression grammar, consistent-hash key
consistency, upstream topology, remote-address well-formedness) on top.
The development below embeds that core shallowly: JSON documents are an
inductive type, each operation is a total Lean function, and fallible
operations return an explicit error sum.
-/

namespace MicroGateway

/-- Modelled from the spec: candidate documents and schema documents are
JSON values (the repository delegates JSON handling to its language
runtime, which is not part of the sources). -/
inductive Json where
  | null : Json
  | bool (b : Bool) : Json
  | num (n : Int) : Json
  | str (s : String) : Json
  | arr (items : List Json) : Json
  | obj (fields : List (String × Json)) : Json

/-- First value bound to key `k` in an association list. -/
def assocFind {α : Type} : List (String × α) → String → Option α
  | [], _ => none
  | (k0, v) :: rest, k => if k = k0 then some v else assocFind rest k

/-- Top-level field lookup in a JSON object; `none` on non-objects. -/
def Json.lookup : Json → String → Option Json
  | .obj fields, k => assocFind fields k
  | _, _ => none

mutual

/-- Serialization of a JSON value, used for the diagnostic schema text. -/
def renderJson : Json → String
  | .null => "null"
  | .bool true => "true"
  | .bool false => "false"
  | .num n => toString n
  | .str s => "\x22" ++ s ++ "\x22"
  | .arr xs => "[" ++ renderArr xs ++ "]"
  | .obj fs => "\x7b" ++ renderObj fs ++ "\x7d"

/-- Serialization of the elements of a JSON array. -/
def renderArr : List Json → String
  | [] => ""
  | [x] => renderJson x
  | x :: y :: rest => renderJson x ++ "," ++ renderArr (y :: rest)

/-- Serialization of the fields of a JSON object. -/
def renderObj : List (String × Json) → String
  | [] => ""
  | [(k, v)] => "\x22" ++ k ++ "\x22:" ++ renderJson v
  | (k, v) :: f :: rest => "\x22" ++ k ++ "\x22:" ++ renderJson v ++ "," ++ renderObj (f :: rest)

end

/-- Errors of the validation core, following the taxonomy of the spec:
configuration errors (unsupported version, schema path not found),
structural schema violations, and semantic violations. -/
inductive SchemaError where
  | unsupportedVersion (version : String) : SchemaError
  | schemaPathNotFound (path : String) : SchemaError
  | schemaViolation (msg : String) : SchemaError
  | varsGrammarError (msg : String) : SchemaError
  | invalidHashOn (hashOn : String) : SchemaError
  | invalidNodeCount (count : Nat) : SchemaError
  | missingUpstreamHost : SchemaError
  | missingKey : SchemaError
  | invalidRemoteAddr (index : Nat) : SchemaError
deriving DecidableEq

instance instDecEqExcept {ε α : Type} [DecidableEq ε] [DecidableEq α] :
    DecidableEq (Except ε α) := fun x y =>
  match x, y with
  | .ok a, .ok b => if h : a = b then isTrue (by rw [h]) else isFalse (by simp [h])
  | .error a, .error b => if h : a = b then isTrue (by rw [h]) else isFalse (by simp [h])
  | .ok _, .error _ => isFalse (by simp)
  | .error _, .ok _ => isFalse (by simp)

/-- Modelled from the spec: the two storage sinks. `DATABASE` is the
internal draft store, `ETCD` the authoritative runtime store. -/
inductive DataType where
  | DATABASE : DataType
  | ETCD : DataType
deriving DecidableEq

/-- Modelled from the spec: the enumerated resource categories. -/
inductive APISIXResource where
  | route : APISIXResource
  | service : APISIXResource
  | upstream : APISIXResource
  | ssl : APISIXResource
  | consumer : APISIXResource
  | consumerGroup : APISIXResource
  | pluginConfig : APISIXResource
  | globalRule : APISIXResource
  | pluginMetadata : APISIXResource
  | streamRoute : APISIXResource
deriving DecidableEq

/-- Path segment of a resource kind under its version document. -/
def APISIXResource.str : APISIXResource → String
  | .route => "route"
  | .service => "service"
  | .upstream => "upstream"
  | .ssl => "ssl"
  | .consumer => "consumer"
  | .consumerGroup => "consumer_group"
  | .pluginConfig => "plugin_config"
  | .globalRule => "global_rule"
  | .pluginMetadata => "plugin_metadata"
  | .streamRoute => "stream_route"

/-- All resource kinds. -/
def resourceTypeList : List APISIXResource :=
  [.route, .service, .upstream, .ssl, .consumer, .consumerGroup,
   .pluginConfig, .globalRule, .pluginMetadata, .streamRoute]

/-- Modelled from the spec: the enumerated supported gateway engine
releases (the version constants are declared outside the sources; the
four supported release lines are 3.2, 3.3, 3.11 and 3.13). -/
def supportedVersions : List String := ["3.13", "3.11", "3.3", "3.2"]

/-- Modelled from the spec: the top-level properties each resource kind
admits in its structural schema. The sets contain every field exercised
by the repository, and no schema contains a field named test_field. -/
def allowedProps : APISIXResource → List String
  | .route =>
    ["id", "name", "desc", "uri", "uris", "host", "hosts", "methods",
     "enable_websocket", "remote_addr", "remote_addrs", "vars", "priority",
     "plugins", "upstream", "upstream_id", "service_id", "plugin_config_id",
     "labels", "timeout", "status", "create_time", "update_time"]
  | .service =>
    ["id", "name", "desc", "upstream", "upstream_id", "plugins",
     "enable_websocket", "hosts", "labels", "create_time", "update_time"]
  | .upstream =>
    ["id", "name", "desc", "scheme", "nodes", "pass_host", "upstream_host",
     "type", "hash_on", "key", "retries", "timeout", "checks", "labels",
     "service_name", "discovery_type", "create_time", "update_time"]
  | .ssl =>
    ["id", "name", "cert", "key", "certs", "keys", "snis", "sni", "status",
     "labels", "validity_start", "validity_end", "type", "client",
     "create_time", "update_time"]
  | .consumer =>
    ["username", "desc", "plugins", "group_id", "labels",
     "create_time", "update_time"]
  | .consumerGroup =>
    ["id", "name", "desc", "plugins", "labels", "create_time", "update_time"]
  | .pluginConfig =>
    ["id", "name", "desc", "plugins", "labels", "create_time", "update_time"]
  | .globalRule =>
    ["id", "name", "plugins", "create_time", "update_time"]
  | .pluginMetadata =>
    ["id", "name", "model", "policy"]
  | .streamRoute =>
    ["id", "name", "desc", "remote_addr", "remote_addrs", "server_addr",
     "server_port", "sni", "protocol", "upstream", "upstream_id",
     "service_id", "plugins", "labels", "create_time", "update_time"]

/-- Modelled from the spec: the schema fragment of one resource kind,
listing its top-level properties. -/
def kindFragment (rt : APISIXResource) : Json :=
  .obj [("properties", .obj ((allowedProps rt).map fun p => (p, .obj [])))]

/-- Modelled from the spec: a version document holds one schema fragment
per resource kind under the key main. -/
def versionDoc : Json :=
  .obj [("main", .obj (resourceTypeList.map fun rt => (rt.str, kindFragment rt)))]

/-- Modelled from the spec: the schema repository holds one schema
document per supported gateway engine version. -/
def schemaDocs : List (String × Json) :=
  supportedVersions.map fun v => (v, versionDoc)

/-- Navigation of a sequence of path segments into a JSON document. -/
def navigate (doc : Json) : List String → Option Json
  | [] => some doc
  | seg :: rest =>
    match doc.lookup seg with
    | some sub => navigate sub rest
    | none => none

/-- Splitting of a character sequence at the dots, accumulating the
current segment in reverse. -/
def splitDotsAux : List Char → List Char → List String
  | [], acc => [String.mk acc.reverse]
  | c :: cs, acc =>
    if c = Char.ofNat 46 then String.mk acc.reverse :: splitDotsAux cs []
    else splitDotsAux cs (c :: acc)

/-- Splitting of a dot-delimited path into its segments. -/
def splitDots (s : String) : List String :=
  splitDotsAux s.data []

/-- Modelled from the spec: resolution of a dot-delimited path inside the
schema document of a version. Fails with UnsupportedVersion when no
document exists for the version, and with SchemaPathNotFound when a path
segment is missing. -/
def resolveSchemaCore (version path : String) : Except SchemaError Json :=
  match assocFind schemaDocs version with
  | none => .error (.unsupportedVersion version)
  | some doc =>
    match navigate doc (splitDots path) with
    | none => .error (.schemaPathNotFound path)
    | some frag => .ok frag

/-- Top-level property names of a schema fragment. -/
def fragProps (frag : Json) : List String :=
  match frag.lookup "properties" with
  | some (.obj fs) => fs.map Prod.fst
  | _ => []

/-- A compiled structural matcher: the admissible top-level properties,
and whether properties outside that set are tolerated. -/
structure CompiledSchema where
  props : List String
  allowAdditional : Bool
deriving DecidableEq

/-- Modelled from the spec: the sink transform. The runtime store (ETCD)
rejects unknown properties at the top level; the draft store (DATABASE)
leaves the schema permissive. -/
def sinkAllowsAdditional : DataType → Bool
  | .DATABASE => true
  | .ETCD => false

/-- Modelled from the spec: strictness transform on the raw schema text.
The runtime-store variant marks the resource top level as rejecting
additional properties. -/
def applySinkTransform (dt : DataType) : Json → Json
  | .obj fs =>
    match dt with
    | .ETCD => .obj (fs ++ [("additionalProperties", .bool false)])
    | .DATABASE => .obj fs
  | j => j

/-- Modelled from the spec: NewResourceSchema resolves (version, kind,
path, sink) to the transformed schema text plus its compiled matcher, in
the style of the source (text, schema, error) triple; on failure the text
is empty and the compiled schema is nil. -/
def NewResourceSchema (version : String) (_rt : APISIXResource) (path : String)
    (dt : DataType) : String × Option CompiledSchema × Option SchemaError :=
  match resolveSchemaCore version path with
  | .error e => ("", none, some e)
  | .ok frag =>
    (renderJson (applySinkTransform dt frag),
     some { props := fragProps frag, allowAdditional := sinkAllowsAdditional dt },
     none)

/-- First top-level field of a document whose name lies outside the
admissible property set. -/
def firstUnknown (props : List String) : List (String × Json) → Option String
  | [] => none
  | (k, _) :: rest => if props.contains k then firstUnknown props rest else some k

/-- Modelled from the spec: the structural evaluation of a document
against a compiled schema, at the level of detail the spec fixes — a
resource document must be a JSON object, and under the strict sink every
top-level property must belong to the schema. -/
def structValidate (cs : CompiledSchema) : Json → Except SchemaError Unit
  | .obj fields =>
    if cs.allowAdditional then .ok ()
    else
      match firstUnknown cs.props fields with
      | some k => .error (.schemaViolation ("additional properties are not allowed: " ++ k))
      | none => .ok ()
  | _ => .error (.schemaViolation "document is not an object")

/-- Modelled from the spec: the gateway engine's fixed comparison-operator
set for filter expressions (members beyond those exercised by the
repository are taken from the engine's expression language). -/
def operatorSet : List String :=
  ["==", "~=", ">", ">=", "<", "<=", "~~", "~*",
   "in", "IN", "has", "HAS", "ipmatch", "IPMATCH"]

/-- A legal filter subject: a non-empty string. -/
def isValidSubject : Json → Bool
  | .str s => !s.isEmpty
  | _ => false

/-- The negation marker of a 4-element filter expression. -/
def isNegationMark : Json → Bool
  | .str s => s == "!"
  | _ => false

/-- A legal filter operator: a string in the fixed operator set. -/
def isValidOperator : Json → Bool
  | .str o => operatorSet.contains o
  | _ => false

/-- A legal filter value: any JSON value other than nil. -/
def isValidValue : Json → Bool
  | .null => false
  | _ => true

/-- Modelled from the spec: one filter expression is a 3-element tuple
(subject, operator, value) or a 4-element negated tuple
(subject, negation, operator, value); subject non-empty string, operator
in the fixed set, value not nil, negation marker the exclamation mark;
any other arity fails. -/
def validateVarItem (item : List Json) : Except SchemaError Unit :=
  match item with
  | [sub, op, v] =>
    if !isValidSubject sub then .error (.varsGrammarError "invalid expression subject")
    else if !isValidOperator op then .error (.varsGrammarError "invalid expression operator")
    else if !isValidValue v then .error (.varsGrammarError "missing expression value")
    else .ok ()
  | [sub, neg, op, v] =>
    if !isValidSubject sub then .error (.varsGrammarError "invalid expression subject")
    else if !isNegationMark neg then .error (.varsGrammarError "invalid negation marker")
    else if !isValidOperator op then .error (.varsGrammarError "invalid expression operator")
    else if !isValidValue v then .error (.varsGrammarError "missing expression value")
    else .ok ()
  | _ => .error (.varsGrammarError "invalid expression arity")

/-- Traversal of the vars sequence, naming the offending index. -/
def checkVarsAux : Nat → List Json → Except SchemaError Unit
  | _, [] => .ok ()
  | i, v :: rest =>
    match v with
    | .arr item =>
      match validateVarItem item with
      | .ok () => checkVarsAux (i + 1) rest
      | .error _ => .error (.varsGrammarError ("invalid vars expression at index " ++ toString i))
    | _ => .error (.varsGrammarError ("vars element is not a tuple at index " ++ toString i))

/-- Modelled from the spec: the filter-expression grammar check over an
ordered sequence of expressions. -/
def checkVars (vars : List Json) : Except SchemaError Unit :=
  checkVarsAux 0 vars

/-- The shape the claim describes for one accepted filter expression: a
3-element tuple subject, operator, value, or a 4-element tuple subject,
negation marker, operator, value, with a non-empty string subject, an
operator from the fixed set and a non-nil value. -/
def varItemWellFormed : List Json → Bool
  | [sub, op, v] => isValidSubject sub && isValidOperator op && isValidValue v
  | [sub, neg, op, v] =>
    isValidSubject sub && isNegationMark neg && isValidOperator op && isValidValue v
  | _ => false

/-- An upstream node: host, port and weight. -/
structure Node where
  host : String := ""
  port : Int := 0
  weight : Int := 0
deriving DecidableEq

/-- Modelled from the spec: the upstream definition consumed by the
semantic checks — node list, host-forwarding policy and hash-balancing
fields. -/
structure UpstreamDef where
  nodes : List Node := []
  passHost : String := ""
  upstreamHost : String := ""
  upstreamType : String := ""
  hashOn : String := ""
  key : String := ""
deriving DecidableEq

/-- String value of a top-level field, or the empty string. -/
def jsonStrOr (j : Json) (k : String) : String :=
  match j.lookup k with
  | some (.str s) => s
  | _ => ""

/-- Integer value of a top-level field, or zero. -/
def jsonIntOr (j : Json) (k : String) : Int :=
  match j.lookup k with
  | some (.num n) => n
  | _ => 0

/-- Decoding of one upstream node from its JSON object. -/
def nodeOfJson (j : Json) : Node :=
  { host := jsonStrOr j "host", port := jsonIntOr j "port", weight := jsonIntOr j "weight" }

/-- Decoding of an upstream definition from its JSON object. -/
def upstreamOfJson (j : Json) : UpstreamDef :=
  { nodes :=
      (match j.lookup "nodes" with
       | some (.arr xs) => xs.map nodeOfJson
       | _ => []),
    passHost := jsonStrOr j "pass_host",
    upstreamHost := jsonStrOr j "upstream_host",
    upstreamType := jsonStrOr j "type",
    hashOn := jsonStrOr j "hash_on",
    key := jsonStrOr j "key" }

/-- Modelled from the spec: the hash-based balancing types. -/
def hashBasedTypes : List String := ["chash"]

/-- Path of the vars-subject schema inside a version document, re-resolved
by the consistent-hash key check. -/
def varsSubjectPath : String := "main.route.properties.vars"

/-- Modelled from the spec: the consistent-hash key check. Consumer
hashing needs no key; vars hashing re-resolves the vars-subject schema of
the validator version (resolver failure propagates) and requires the key
to be a legal filter subject; header and cookie hashing require a
non-empty key; any other hash_on is invalid. -/
def cHashKeySchemaCheck (version : String) (u : UpstreamDef) : Except SchemaError Unit :=
  if u.hashOn = "consumer" then .ok ()
  else if u.hashOn = "vars" then
    match resolveSchemaCore version varsSubjectPath with
    | .error e => .error e
    | .ok _ =>
      if u.key = "" then .error (.schemaViolation ("invalid hash key: " ++ u.key))
      else .ok ()
  else if u.hashOn = "header" ∨ u.hashOn = "cookie" then
    if u.key = "" then .error .missingKey else .ok ()
  else .error (.invalidHashOn u.hashOn)

/-- Modelled from the spec: the upstream topology check. Forwarding policy
node requires exactly one node; policy rewrite requires a non-empty
upstream_host; a hash-based balancing type requires a populated key. -/
def checkUpstream (u : UpstreamDef) : Except SchemaError Unit :=
  if u.passHost = "node" ∧ u.nodes.length ≠ 1 then
    .error (.invalidNodeCount u.nodes.length)
  else if u.passHost = "rewrite" ∧ u.upstreamHost = "" then
    .error .missingUpstreamHost
  else if u.upstreamType ∈ hashBasedTypes ∧ u.key = "" then
    .error .missingKey
  else .ok ()

/-- Traversal of the remote-address list, naming the offending index. -/
def checkRemoteAddrAux : Nat → List String → Except SchemaError Unit
  | _, [] => .ok ()
  | i, a :: rest =>
    if a = "" then .error (.invalidRemoteAddr i) else checkRemoteAddrAux (i + 1) rest

/-- Modelled from the spec: the remote-address check — every entry of the
list must be non-empty. -/
def checkRemoteAddr (addrs : List String) : Except SchemaError Unit :=
  checkRemoteAddrAux 0 addrs

/-- The vars grammar rule, run when the vars field is present. -/
def varsStep (doc : Json) : Except SchemaError Unit :=
  match doc.lookup "vars" with
  | some (.arr vs) => checkVars vs
  | some _ => .error (.varsGrammarError "vars is not a sequence")
  | none => .ok ()

/-- The hash-key and topology rules over one upstream definition, in the
rule order of the spec: the consistent-hash key check runs when hash_on
is set, then the topology check runs. -/
def upstreamRules (version : String) (u : UpstreamDef) : Except SchemaError Unit :=
  match (if u.hashOn = "" then .ok () else cHashKeySchemaCheck version u) with
  | .error e => .error e
  | .ok () => checkUpstream u

/-- The upstream rules over an embedded upstream field, when present. -/
def embeddedUpstreamStep (version : String) (doc : Json) : Except SchemaError Unit :=
  match doc.lookup "upstream" with
  | some u => upstreamRules version (upstreamOfJson u)
  | none => .ok ()

/-- The remote-address rule over the remote_addr and remote_addrs fields,
when present. -/
def remoteAddrStep (doc : Json) : Except SchemaError Unit :=
  match
    ((match doc.lookup "remote_addrs" with
      | some (.arr xs) => checkRemoteAddr (xs.map fun x =>
          match x with
          | .str s => s
          | _ => "")
      | _ => .ok ()) : Except SchemaError Unit) with
  | .error e => .error e
  | .ok () =>
    match doc.lookup "remote_addr" with
    | some (.str s) => checkRemoteAddr [s]
    | _ => .ok ()

/-- Modelled from the spec: the semantic rule set, dispatched by resource
kind and invoked only after structural success, in the rule order vars,
hash-key, upstream topology, remote address; a rule runs only when its
resource kind and relevant field are present. -/
def semanticCheck (version : String) (rt : APISIXResource) (doc : Json) :
    Except SchemaError Unit :=
  match rt with
  | .route =>
    (match varsStep doc with
     | .error e => .error e
     | .ok () => embeddedUpstreamStep version doc)
  | .service => embeddedUpstreamStep version doc
  | .upstream => upstreamRules version (upstreamOfJson doc)
  | .streamRoute =>
    (match remoteAddrStep doc with
     | .error e => .error e
     | .ok () => embeddedUpstreamStep version doc)
  | _ => .ok ()

/-- The composed validator: a resolved structural schema bound to the
version and resource-kind context the semantic rules need. -/
structure APISIXJsonSchemaValidator where
  version : String
  resourceType : APISIXResource
  schema : CompiledSchema

/-- Modelled from the spec: construction of the composed validator; it
delegates resolution to NewResourceSchema and fails exactly when
resolution fails. -/
def NewAPISIXJsonSchemaValidator (version : String) (rt : APISIXResource)
    (path : String) (dt : DataType) : Except SchemaError APISIXJsonSchemaValidator :=
  match NewResourceSchema version rt path dt with
  | (_, _, some e) => .error e
  | (_, some cs, none) => .ok { version := version, resourceType := rt, schema := cs }
  | (_, none, none) => .error (.schemaViolation "no schema resolved")

/-- Modelled from the spec: validation of a raw document. The raw byte
sequence is represented by its parse outcome: an unparsable sequence is
the none case, reported as an ordinary parse-failure violation. A parsed
document runs the structural evaluation, then the semantic rules; the
first violation is returned. -/
def APISIXJsonSchemaValidator.validate (val : APISIXJsonSchemaValidator)
    (raw : Option Json) : Except SchemaError Unit :=
  match raw with
  | none => .error (.schemaViolation "failed to parse the document")
  | some doc =>
    match structValidate val.schema doc with
    | .error e => .error e
    | .ok () => semanticCheck val.version val.resourceType doc

/-- Construction for the canonical path of a resource kind followed by
validation; a construction failure is returned as the verdict. -/
def validateFor (version : String) (rt : APISIXResource) (dt : DataType)
    (raw : Option Json) : Except SchemaError Unit :=
  match NewAPISIXJsonSchemaValidator version rt ("main." ++ rt.str) dt with
  | .error e => .error e
  | .ok val => val.validate raw

/-- Non-empty string value of a top-level field. -/
def jsonStrField (j : Json) (k : String) : Option String :=
  match j.lookup k with
  | some (.str s) => if s = "" then none else some s
  | _ => none

/-- Modelled from the spec: the identification extractor. It checks the
top-level fields id, then name, then username, returns the first present
non-empty value, and returns the empty string when none is present or the
document is unparsable (the none case); it never fails. -/
def GetResourceIdentification (raw : Option Json) : String :=
  match raw with
  | none => ""
  | some j =>
    match jsonStrField j "id" with
    | some s => s
    | none =>
      match jsonStrField j "name" with
      | some s => s
      | none =>
        match jsonStrField j "username" with
        | some s => s
        | none => ""

/-- The node of the repository's one-node upstreams. -/
def node1 : Node := { host := "127.0.0.1", port := 80, weight := 1 }

/-- The second node of the repository's two-node upstream. -/
def node2 : Node := { host := "127.0.0.2", port := 80, weight := 1 }

/-- The single-node upstream of the end-to-end Route document: one node,
pass_host pass, type roundrobin. -/
def sampleUpstream : Json :=
  .obj [("scheme", .str "http"),
        ("nodes", .arr [.obj [("host", .str "1.1.1.1"), ("port", .num 80), ("weight", .num 1)]]),
        ("pass_host", .str "pass"),
        ("type", .str "roundrobin")]

/-- Top-level fields of the end-to-end Route document: methods GET and
POST, uris /test, a negated 4-element filter expression, and the
single-node upstream. -/
def sampleRouteFields : List (String × Json) :=
  [("name", .str "route1"),
   ("methods", .arr [.str "GET", .str "POST"]),
   ("enable_websocket", .bool false),
   ("uris", .arr [.str "/test"]),
   ("vars", .arr [.arr [.str "http_a", .str "!", .str "==", .str "av"]]),
   ("upstream", sampleUpstream)]

/-- The end-to-end Route document. -/
def sampleRouteDoc : Json := .obj sampleRouteFields

theorem renderJson_obj_ne_empty (fs : List (String × Json)) :
    renderJson (Json.obj fs) ≠ "" := by
  intro h
  have hlen := congrArg String.length h
  rw [show renderJson (Json.obj fs) = "\x7b" ++ renderObj fs ++ "\x7d" from rfl] at hlen
  rw [String.length_append, String.length_append] at hlen
  rw [show ("\x7b").length = 1 from rfl, show ("\x7d").length = 1 from rfl,
      show ("").length = 0 from rfl] at hlen
  omega

theorem mem_supportedVersions_cases (v : String) (hv : v ∈ supportedVersions) :
    v = "3.13" ∨ v = "3.11" ∨ v = "3.3" ∨ v = "3.2" := by
  simpa [supportedVersions, List.mem_cons] using hv

theorem resolveSchemaCore_canonical (v : String) (hv : v ∈ supportedVersions)
    (rt : APISIXResource) :
    resolveSchemaCore v ("main." ++ rt.str) = .ok (kindFragment rt) := by
  rcases mem_supportedVersions_cases v hv with rfl | rfl | rfl | rfl <;> cases rt <;> rfl

theorem resolveSchemaCore_varsSubject (v : String) (hv : v ∈ supportedVersions) :
    resolveSchemaCore v varsSubjectPath = .ok (.obj []) := by
  rcases mem_supportedVersions_cases v hv with rfl | rfl | rfl | rfl <;> rfl

theorem resolveSchemaCore_unsupported (v : String) (hv : v ∉ supportedVersions)
    (path : String) :
    resolveSchemaCore v path = .error (.unsupportedVersion v) := by
  simp only [supportedVersions, List.mem_cons, List.not_mem_nil, or_false, not_or] at hv
  obtain ⟨h1, h2, h3, h4⟩ := hv
  simp [resolveSchemaCore, schemaDocs, supportedVersions, assocFind, h1, h2, h3, h4]

theorem map_fst_pair {α β : Type} (f : α → β) (l : List α) :
    (l.map fun p => (p, f p)).map Prod.fst = l := by
  induction l with
  | nil => rfl
  | cons a t ih => simp [ih]

theorem fragProps_kindFragment (rt : APISIXResource) :
    fragProps (kindFragment rt) = allowedProps rt := by
  have h : fragProps (kindFragment rt)
      = ((allowedProps rt).map fun p => (p, Json.obj [])).map Prod.fst := rfl
  rw [h]
  exact map_fst_pair (fun _ => Json.obj []) (allowedProps rt)

theorem newValidator_canonical (v : String) (hv : v ∈ supportedVersions)
    (rt : APISIXResource) (dt : DataType) :
    NewAPISIXJsonSchemaValidator v rt ("main." ++ rt.str) dt =
      .ok { version := v, resourceType := rt,
            schema := { props := allowedProps rt,
                        allowAdditional := sinkAllowsAdditional dt } } := by
  simp [NewAPISIXJsonSchemaValidator, NewResourceSchema,
        resolveSchemaCore_canonical v hv rt, fragProps_kindFragment]

theorem structValidate_strict_cons_unknown (cs : CompiledSchema) (k : String)
    (x : Json) (fields : List (String × Json)) (hstrict : cs.allowAdditional = false)
    (hk : k ∉ cs.props) :
    structValidate cs (.obj ((k, x) :: fields)) =
      .error (.schemaViolation ("additional properties are not allowed: " ++ k)) := by
  simp [structValidate, hstrict, firstUnknown, hk]

/-- C1: for every supported version and resource kind, a document the
RuntimeStore (ETCD) validator accepts is rejected once a top-level field
absent from the schema (such as test_field) is added, while under the
DraftStore (DATABASE) sink the unknown-field document may be accepted,
witnessed by the sample Route document extended with test_field. -/
theorem validate_runtime_rejects_unknown_top_field :
    (∀ v, v ∈ supportedVersions → ∀ (rt : APISIXResource) (k : String) (x : Json)
       (fields : List (String × Json)), k ∉ allowedProps rt →
       validateFor v rt DataType.ETCD (some (.obj fields)) = .ok () →
       ∃ e, validateFor v rt DataType.ETCD (some (.obj ((k, x) :: fields))) = .error e)
    ∧ validateFor "3.11" APISIXResource.route DataType.DATABASE
        (some (.obj (("test_field", .str "test_value") :: sampleRouteFields))) = .ok () := by
  constructor
  · intro v hv rt k x fields hk _hok
    have hcons := newValidator_canonical v hv rt DataType.ETCD
    have hs := structValidate_strict_cons_unknown
      { props := allowedProps rt, allowAdditional := sinkAllowsAdditional DataType.ETCD }
      k x fields rfl hk
    exact ⟨.schemaViolation ("additional properties are not allowed: " ++ k),
      by simp [validateFor, hcons, APISIXJsonSchemaValidator.validate, hs]⟩
  · rfl

/-- Witness for C1 at version 3.13, kind Route, with the field test_field
added on top of the accepted sample Route document. -/
theorem validate_runtime_rejects_unknown_top_field_witness :
    ∃ e, validateFor "3.13" APISIXResource.route DataType.ETCD
      (some (.obj (("test_field", .str "test_value") :: sampleRouteFields))) = .error e :=
  validate_runtime_rejects_unknown_top_field.1 "3.13" (by decide)
    APISIXResource.route "test_field" (.str "test_value") sampleRouteFields
    (by decide) (by decide)

/-- C2: resolution yields non-empty schema text, a compiled schema and no
error for every supported (version, kind) pair at its canonical path
main.kind; for an unsupported version, or a path with a missing dotted
segment, it yields an error beside empty text and no compiled schema. -/
theorem newResourceSchema_resolution :
    (∀ v, v ∈ supportedVersions → ∀ (rt : APISIXResource) (dt : DataType),
       (NewResourceSchema v rt ("main." ++ rt.str) dt).1 ≠ ""
       ∧ (NewResourceSchema v rt ("main." ++ rt.str) dt).2.1.isSome = true
       ∧ (NewResourceSchema v rt ("main." ++ rt.str) dt).2.2 = none)
    ∧ (∀ v, v ∉ supportedVersions → ∀ (rt : APISIXResource) (path : String) (dt : DataType),
       NewResourceSchema v rt path dt = ("", none, some (.unsupportedVersion v)))
    ∧ (∀ v, v ∈ supportedVersions → ∀ (rt : APISIXResource) (path : String) (dt : DataType),
       navigate versionDoc (splitDots path) = none →
       NewResourceSchema v rt path dt = ("", none, some (.schemaPathNotFound path))) := by
  refine ⟨?_, ?_, ?_⟩
  · intro v hv rt dt
    have hres := resolveSchemaCore_canonical v hv rt
    refine ⟨?_, ?_, ?_⟩
    · have hshape : ∃ gs, applySinkTransform dt (kindFragment rt) = Json.obj gs := by
        cases dt <;> exact ⟨_, rfl⟩
      obtain ⟨gs, hgs⟩ := hshape
      have h1 : (NewResourceSchema v rt ("main." ++ rt.str) dt).1
          = renderJson (applySinkTransform dt (kindFragment rt)) := by
        simp [NewResourceSchema, hres]
      rw [h1, hgs]
      exact renderJson_obj_ne_empty gs
    · simp [NewResourceSchema, hres]
    · simp [NewResourceSchema, hres]
  · intro v hv rt path dt
    simp [NewResourceSchema, resolveSchemaCore_unsupported v hv path]
  · intro v hv rt path dt hnav
    rcases mem_supportedVersions_cases v hv with rfl | rfl | rfl | rfl <;>
      simp [NewResourceSchema, resolveSchemaCore, schemaDocs, supportedVersions,
            assocFind, hnav]

/-- Witness for C2: success at (3.11, route), failure for an unsupported
version, failure for a path absent from the version document. -/
theorem newResourceSchema_resolution_witness :
    (NewResourceSchema "3.11" APISIXResource.route ("main." ++ APISIXResource.route.str)
       DataType.ETCD).2.2 = none
    ∧ NewResourceSchema "invalid_version" APISIXResource.route "main.route" DataType.DATABASE
        = ("", none, some (.unsupportedVersion "invalid_version"))
    ∧ NewResourceSchema "3.11" APISIXResource.route "invalid.path" DataType.DATABASE
        = ("", none, some (.schemaPathNotFound "invalid.path")) :=
  ⟨(newResourceSchema_resolution.1 "3.11" (by decide) APISIXResource.route DataType.ETCD).2.2,
   newResourceSchema_resolution.2.1 "invalid_version" (by decide) APISIXResource.route
     "main.route" DataType.DATABASE,
   newResourceSchema_resolution.2.2 "3.11" (by decide) APISIXResource.route
     "invalid.path" DataType.DATABASE rfl⟩

/-- C3: the filter-expression item check accepts exactly the well-formed
3-element tuples and negated 4-element tuples — non-empty string subject,
operator from the fixed set, non-nil value, negation marker the
exclamation mark — and rejects any other arity, a non-string subject, an
unrecognized operator or negation marker, and a nil value; the sequence
check follows it element-wise. -/
theorem validateVarItem_characterization :
    (∀ item : List Json, validateVarItem item = .ok () ↔ varItemWellFormed item = true)
    ∧ validateVarItem [.str "arg_id", .str "==", .str "123"] = .ok ()
    ∧ validateVarItem [.str "arg_id", .str "!", .str "==", .str "123"] = .ok ()
    ∧ validateVarItem [.str "arg_id", .str "=="] ≠ .ok ()
    ∧ validateVarItem [.str "arg_id", .str "!", .str "==", .str "123", .str "x"] ≠ .ok ()
    ∧ validateVarItem [.num 123, .str "==", .str "123"] ≠ .ok ()
    ∧ validateVarItem [.str "arg_id", .str "invalid_op", .str "123"] ≠ .ok ()
    ∧ validateVarItem [.str "arg_id", .str "invalid", .str "==", .str "123"] ≠ .ok ()
    ∧ validateVarItem [.str "arg_id", .str "==", .null] ≠ .ok ()
    ∧ checkVars [.arr [.str "arg_id", .str "==", .str "123"],
                 .arr [.str "http_x_header", .str "!", .str "~~", .str "test.*"]] = .ok ()
    ∧ checkVars [.str "invalid_item"] ≠ .ok ()
    ∧ checkVars [.arr [.str "arg_id", .str "invalid_op", .str "123"]] ≠ .ok () := by
  refine ⟨?_, by decide, by decide, by decide, by decide, by decide, by decide,
    by decide, by decide, by decide, by decide, by decide⟩
  intro item
  match item with
  | [] => simp [validateVarItem, varItemWellFormed]
  | [a] => simp [validateVarItem, varItemWellFormed]
  | [a, b] => simp [validateVarItem, varItemWellFormed]
  | [a, b, c] =>
    cases h1 : isValidSubject a <;> cases h2 : isValidOperator b <;>
      cases h3 : isValidValue c <;>
      simp [validateVarItem, varItemWellFormed, h1, h2, h3]
  | [a, b, c, d] =>
    cases h1 : isValidSubject a <;> cases h2 : isNegationMark b <;>
      cases h3 : isValidOperator c <;> cases h4 : isValidValue d <;>
      simp [validateVarItem, varItemWellFormed, h1, h2, h3, h4]
  | a :: b :: c :: d :: e :: rest => simp [validateVarItem, varItemWellFormed]

/-- C4: the consistent-hash key check succeeds for consumer hashing with
an empty key; vars, header and cookie hashing succeed with a non-empty
key and fail with an empty one; any hash_on outside the four fails with
InvalidHashOn; vars hashing under an unsupported version fails with the
propagated resolver error. -/
theorem cHashKeySchemaCheck_characterization :
    (∀ (version : String) (u : UpstreamDef), u.hashOn = "consumer" →
       cHashKeySchemaCheck version u = .ok ())
    ∧ (∀ version, version ∈ supportedVersions → ∀ u : UpstreamDef,
       u.hashOn = "vars" → u.key ≠ "" → cHashKeySchemaCheck version u = .ok ())
    ∧ (∀ (version : String) (u : UpstreamDef),
       (u.hashOn = "header" ∨ u.hashOn = "cookie") → u.key ≠ "" →
       cHashKeySchemaCheck version u = .ok ())
    ∧ (∀ version, version ∈ supportedVersions → ∀ u : UpstreamDef,
       (u.hashOn = "vars" ∨ u.hashOn = "header" ∨ u.hashOn = "cookie") →
       u.key = "" → cHashKeySchemaCheck version u ≠ .ok ())
    ∧ (∀ (version : String) (u : UpstreamDef), u.hashOn ≠ "" →
       u.hashOn ∉ ["consumer", "vars", "header", "cookie"] →
       cHashKeySchemaCheck version u = .error (.invalidHashOn u.hashOn))
    ∧ (∀ version, version ∉ supportedVersions → ∀ u : UpstreamDef,
       u.hashOn = "vars" →
       cHashKeySchemaCheck version u = .error (.unsupportedVersion version)) := by
  refine ⟨?_, ?_, ?_, ?_, ?_, ?_⟩
  · intro version u h
    simp [cHashKeySchemaCheck, h]
  · intro version hv u h hkey
    simp [cHashKeySchemaCheck, h, resolveSchemaCore_varsSubject version hv, hkey]
  · intro version u h hkey
    rcases h with h | h <;> simp [cHashKeySchemaCheck, h, hkey]
  · intro version hv u h hkey
    rcases h with h | h | h <;>
      simp [cHashKeySchemaCheck, h, hkey, resolveSchemaCore_varsSubject version hv]
  · intro version u hne hnotin
    simp only [List.mem_cons, List.not_mem_nil, or_false, not_or] at hnotin
    obtain ⟨h1, h2, h3, h4⟩ := hnotin
    simp [cHashKeySchemaCheck, h1, h2, h3, h4]
  · intro version hv u h
    simp [cHashKeySchemaCheck, h, resolveSchemaCore_unsupported version hv varsSubjectPath]

/-- Witness for C4 over the upstreams of the repository: consumer with an
empty key, vars and cookie with keys, vars with an empty key, an unknown
hash_on, and vars under an unsupported version. -/
theorem cHashKeySchemaCheck_characterization_witness :
    cHashKeySchemaCheck "3.11" { hashOn := "consumer" } = .ok ()
    ∧ cHashKeySchemaCheck "3.11" { hashOn := "vars", key := "arg_id" } = .ok ()
    ∧ cHashKeySchemaCheck "3.11" { hashOn := "cookie", key := "session_id" } = .ok ()
    ∧ cHashKeySchemaCheck "3.11" { hashOn := "vars", key := "" } ≠ .ok ()
    ∧ cHashKeySchemaCheck "3.11" { hashOn := "invalid" } = .error (.invalidHashOn "invalid")
    ∧ cHashKeySchemaCheck "invalid_version" { hashOn := "vars", key := "arg_id" }
        = .error (.unsupportedVersion "invalid_version") :=
  ⟨cHashKeySchemaCheck_characterization.1 "3.11" { hashOn := "consumer" } rfl,
   cHashKeySchemaCheck_characterization.2.1 "3.11" (by decide)
     { hashOn := "vars", key := "arg_id" } rfl (by decide),
   cHashKeySchemaCheck_characterization.2.2.1 "3.11"
     { hashOn := "cookie", key := "session_id" } (Or.inr rfl) (by decide),
   cHashKeySchemaCheck_characterization.2.2.2.1 "3.11" (by decide)
     { hashOn := "vars", key := "" } (Or.inl rfl) rfl,
   cHashKeySchemaCheck_characterization.2.2.2.2.1 "3.11" { hashOn := "invalid" }
     (by decide) (by decide),
   cHashKeySchemaCheck_characterization.2.2.2.2.2 "invalid_version" (by decide)
     { hashOn := "vars", key := "arg_id" } rfl⟩

/-- C5: the upstream topology check rejects pass_host node unless the
node list has exactly one entry, accepts the single-node test upstream,
rejects pass_host rewrite with an empty upstream_host, accepts rewrite
with a host, and rejects every hash-based balancing type without a
populated key. -/
theorem checkUpstream_topology :
    (∀ u : UpstreamDef, u.passHost = "node" → u.nodes.length ≠ 1 →
       checkUpstream u = .error (.invalidNodeCount u.nodes.length))
    ∧ checkUpstream { passHost := "node", nodes := [node1] } = .ok ()
    ∧ (∀ u : UpstreamDef, u.passHost = "rewrite" → u.upstreamHost = "" →
       checkUpstream u = .error .missingUpstreamHost)
    ∧ checkUpstream { passHost := "rewrite", upstreamHost := "example.com" } = .ok ()
    ∧ (∀ u : UpstreamDef, u.upstreamType ∈ hashBasedTypes → u.key = "" →
       checkUpstream u ≠ .ok ()) := by
  refine ⟨?_, by decide, ?_, by decide, ?_⟩
  · intro u h hl
    simp [checkUpstream, h, hl]
  · intro u h hh
    simp [checkUpstream, h, hh]
  · intro u ht hk
    unfold checkUpstream
    split
    · simp
    · split
      · simp
      · rw [if_pos ⟨ht, hk⟩]
        simp

/-- Witness for C5 over the repository's upstreams: zero nodes, two
nodes, rewrite with an empty host, and a keyless chash balancer. -/
theorem checkUpstream_topology_witness :
    checkUpstream { passHost := "node", nodes := ([] : List Node) }
      = .error (.invalidNodeCount 0)
    ∧ checkUpstream { passHost := "node", nodes := [node1, node2] }
      = .error (.invalidNodeCount 2)
    ∧ checkUpstream { passHost := "rewrite", upstreamHost := "" }
      = .error .missingUpstreamHost
    ∧ checkUpstream { passHost := "node", upstreamType := "chash", upstreamHost := "example.com" }
      ≠ .ok () :=
  ⟨checkUpstream_topology.1 { passHost := "node", nodes := [] } rfl (by decide),
   checkUpstream_topology.1 { passHost := "node", nodes := [node1, node2] } rfl (by decide),
   checkUpstream_topology.2.2.1 { passHost := "rewrite", upstreamHost := "" } rfl rfl,
   checkUpstream_topology.2.2.2.2
     { passHost := "node", upstreamType := "chash", upstreamHost := "example.com" }
     (by decide) rfl⟩

/-- C6: under every supported version and both storage sinks, the sample
Route document — methods GET and POST, uris /test, a single-node upstream
with pass_host pass and type roundrobin, and the negated filter
expression on http_a — validates with no error. -/
theorem validate_sampleRoute_all_versions :
    ∀ v, v ∈ supportedVersions → ∀ dt : DataType,
      validateFor v APISIXResource.route dt (some sampleRouteDoc) = .ok () := by
  intro v hv dt
  rcases mem_supportedVersions_cases v hv with rfl | rfl | rfl | rfl <;> cases dt <;> rfl

/-- Witness for C6 at version 3.2 under the RuntimeStore sink. -/
theorem validate_sampleRoute_all_versions_witness :
    validateFor "3.2" APISIXResource.route DataType.ETCD (some sampleRouteDoc) = .ok () :=
  validate_sampleRoute_all_versions "3.2" (by decide) DataType.ETCD

theorem checkRemoteAddrAux_ok (l : List String) (h : ∀ a ∈ l, a ≠ "") :
    ∀ i, checkRemoteAddrAux i l = .ok () := by
  induction l with
  | nil => intro i; rfl
  | cons a rest ih =>
    intro i
    have ha : a ≠ "" := h a (by simp)
    simp only [checkRemoteAddrAux]
    rw [if_neg ha]
    exact ih (fun b hb => h b (by simp [hb])) (i + 1)

theorem checkRemoteAddrAux_err :
    ∀ l : List String, "" ∈ l → ∀ i, ∃ e, checkRemoteAddrAux i l = .error e := by
  intro l
  induction l with
  | nil => intro h; cases h
  | cons a rest ih =>
    intro h i
    by_cases ha : a = ""
    · exact ⟨.invalidRemoteAddr i, by simp [checkRemoteAddrAux, ha]⟩
    · have hm : "" ∈ rest := by
        rcases List.mem_cons.mp h with h1 | h1
        · exact absurd h1.symm ha
        · exact h1
      obtain ⟨e, he⟩ := ih hm (i + 1)
      exact ⟨e, by simp [checkRemoteAddrAux, ha, he]⟩

/-- C7: the remote-address check returns no error on a list whose entries
are all non-empty, and returns an error whenever some entry is the empty
string. -/
theorem checkRemoteAddr_nonempty :
    (∀ addrs : List String, (∀ a ∈ addrs, a ≠ "") → checkRemoteAddr addrs = .ok ())
    ∧ (∀ addrs : List String, "" ∈ addrs → ∃ e, checkRemoteAddr addrs = .error e) :=
  ⟨fun addrs h => checkRemoteAddrAux_ok addrs h 0,
   fun addrs h => checkRemoteAddrAux_err addrs h 0⟩

/-- Witness for C7 over the repository's address lists. -/
theorem checkRemoteAddr_nonempty_witness :
    checkRemoteAddr ["127.0.0.1", "192.168.1.1"] = .ok ()
    ∧ ∃ e, checkRemoteAddr [""] = .error e :=
  ⟨checkRemoteAddr_nonempty.1 ["127.0.0.1", "192.168.1.1"] (by decide),
   checkRemoteAddr_nonempty.2 [""] (by decide)⟩

/-- C8: the identification extractor returns the first present non-empty
value among the top-level fields id, name, username in that priority
order, the empty string when none is present or the document is
unparsable, and, being a total function, never fails. -/
theorem getResourceIdentification_priority :
    (∀ (j : Json) (s : String), jsonStrField j "id" = some s →
       GetResourceIdentification (some j) = s)
    ∧ (∀ (j : Json) (s : String), jsonStrField j "id" = none →
       jsonStrField j "name" = some s → GetResourceIdentification (some j) = s)
    ∧ (∀ (j : Json) (s : String), jsonStrField j "id" = none →
       jsonStrField j "name" = none → jsonStrField j "username" = some s →
       GetResourceIdentification (some j) = s)
    ∧ (∀ j : Json, jsonStrField j "id" = none → jsonStrField j "name" = none →
       jsonStrField j "username" = none → GetResourceIdentification (some j) = "")
    ∧ GetResourceIdentification none = ""
    ∧ GetResourceIdentification (some (.obj [("id", .str "test-id")])) = "test-id"
    ∧ GetResourceIdentification (some (.obj [("name", .str "test-name")])) = "test-name"
    ∧ GetResourceIdentification (some (.obj [("username", .str "test-user")])) = "test-user"
    ∧ GetResourceIdentification
        (some (.obj [("username", .str "c"), ("id", .str "a"), ("name", .str "b")])) = "a"
    ∧ GetResourceIdentification
        (some (.obj [("username", .str "c"), ("name", .str "b")])) = "b" := by
  refine ⟨?_, ?_, ?_, ?_, rfl, rfl, rfl, rfl, rfl, rfl⟩
  · intro j s h
    simp [GetResourceIdentification, h]
  · intro j s h1 h2
    simp [GetResourceIdentification, h1, h2]
  · intro j s h1 h2 h3
    simp [GetResourceIdentification, h1, h2, h3]
  · intro j h1 h2 h3
    simp [GetResourceIdentification, h1, h2, h3]

/-- Witness for C8 on a document carrying all three fields. -/
theorem getResourceIdentification_priority_witness :
    GetResourceIdentification
      (some (.obj [("name", .str "n1"), ("id", .str "i1"), ("username", .str "u1")])) = "i1" :=
  getResourceIdentification_priority.1
    (.obj [("name", .str "n1"), ("id", .str "i1"), ("username", .str "u1")]) "i1" rfl

/-- C9: for every input — the unparsable byte sequences being represented
by the none parse outcome — validation returns an ordinary error value or
succeeds; it is a total function, so it cannot abort, and on an
unparsable input it always returns an error. -/
theorem validate_total_on_malformed_input :
    ∀ (version : String) (rt : APISIXResource) (dt : DataType) (raw : Option Json),
      (raw = none → ∃ e, validateFor version rt dt raw = .error e)
      ∧ (validateFor version rt dt raw = .ok ()
         ∨ ∃ e, validateFor version rt dt raw = .error e) := by
  intro version rt dt raw
  constructor
  · rintro rfl
    unfold validateFor
    cases h : NewAPISIXJsonSchemaValidator version rt ("main." ++ rt.str) dt with
    | error e => exact ⟨e, rfl⟩
    | ok val => exact ⟨.schemaViolation "failed to parse the document", rfl⟩
  · cases h : validateFor version rt dt raw with
    | ok u => cases u; exact Or.inl rfl
    | error e => exact Or.inr ⟨e, rfl⟩

/-- Witness for C9 at version 3.11, kind Route, RuntimeStore sink, on an
unparsable input. -/
theorem validate_total_on_malformed_input_witness :
    ∃ e, validateFor "3.11" APISIXResource.route DataType.ETCD none = .error e :=
  (validate_total_on_malformed_input "3.11" APISIXResource.route DataType.ETCD none).1 rfl

/-- C10: the filter-expression grammar check accepts the empty sequence,
so a Route whose vars field is present but empty passes both the check in
isolation and the semantic rule set. -/
theorem checkVars_empty_ok :
    checkVars ([] : List Json) = .ok ()
    ∧ varsStep (.obj [("vars", .arr [])]) = .ok ()
    ∧ semanticCheck "3.11" APISIXResource.route
        (.obj [("uris", .arr [.str "/test"]), ("vars", .arr [])]) = .ok () :=
  ⟨rfl, rfl, rfl⟩

end MicroGateway
